import Mathlib

/-!
Shallow embedding of the resume scoring heuristics of
`src/components/ResumeScoring.tsx` (the `analyzeResume` function and the
constants it closes over), together with theorems settling the frozen
claims about it.

JavaScript `number` values that can become non-finite (the readability
path, where a division by a zero sentence or word count occurs) are
modelled by the type `JS` below: a finite value is carried exactly as a
rational, and the IEEE-754 special values `Infinity`, `-Infinity` and
`NaN` are explicit constructors.  Arithmetic on finite values is modelled
exactly (rationals instead of binary64); the quantities appearing here
are small integer ratios, so no rounding-boundary behaviour is lost.
Scores that provably stay finite (formatting, keywords, grammar) are
computed in `ℚ`/`ℤ` directly, which agrees with the JS evaluation.
`Math.round` is round-half-toward-positive-infinity, `⌊x + 1/2⌋`.
-/

namespace ResumeScoreWiz

/-- Model of a JavaScript `number` as used by the scorer: a finite value
(exact rational), positive infinity, negative infinity, or NaN. -/
inductive JS where
  | fin : ℚ → JS
  | pinf : JS
  | ninf : JS
  | nan : JS
deriving DecidableEq

/-- JS negation. -/
def JS.neg : JS → JS
  | .fin a => .fin (-a)
  | .pinf => .ninf
  | .ninf => .pinf
  | .nan => .nan

/-- JS addition (IEEE-754: `∞ + (-∞) = NaN`, NaN propagates). -/
def JS.add : JS → JS → JS
  | .fin a, .fin b => .fin (a + b)
  | .fin _, .pinf => .pinf
  | .fin _, .ninf => .ninf
  | .pinf, .fin _ => .pinf
  | .ninf, .fin _ => .ninf
  | .pinf, .pinf => .pinf
  | .ninf, .ninf => .ninf
  | .pinf, .ninf => .nan
  | .ninf, .pinf => .nan
  | _, _ => .nan

/-- JS subtraction, `a - b = a + (-b)`. -/
def JS.sub (a b : JS) : JS := a.add b.neg

/-- JS multiplication (IEEE-754: `∞ × 0 = NaN`, sign rules, NaN propagates). -/
def JS.mul : JS → JS → JS
  | .fin a, .fin b => .fin (a * b)
  | .fin a, .pinf => if 0 < a then .pinf else if a < 0 then .ninf else .nan
  | .fin a, .ninf => if 0 < a then .ninf else if a < 0 then .pinf else .nan
  | .pinf, .fin b => if 0 < b then .pinf else if b < 0 then .ninf else .nan
  | .ninf, .fin b => if 0 < b then .ninf else if b < 0 then .pinf else .nan
  | .pinf, .pinf => .pinf
  | .pinf, .ninf => .ninf
  | .ninf, .pinf => .ninf
  | .ninf, .ninf => .pinf
  | _, _ => .nan

/-- JS division (IEEE-754: `x / 0` is a signed infinity for `x ≠ 0` and
NaN for `0 / 0`; `∞ / ∞ = NaN`; NaN propagates). -/
def JS.div : JS → JS → JS
  | .fin a, .fin b =>
      if b = 0 then (if 0 < a then .pinf else if a < 0 then .ninf else .nan)
      else .fin (a / b)
  | .fin _, .pinf => .fin 0
  | .fin _, .ninf => .fin 0
  | .pinf, .fin b => if b < 0 then .ninf else .pinf
  | .ninf, .fin b => if b < 0 then .pinf else .ninf
  | _, _ => .nan

/-- `Math.abs`. -/
def JS.abs : JS → JS
  | .fin a => .fin |a|
  | .nan => .nan
  | _ => .pinf

/-- `Math.min` (returns NaN if either argument is NaN). -/
def JS.min : JS → JS → JS
  | .nan, _ => .nan
  | _, .nan => .nan
  | .ninf, _ => .ninf
  | _, .ninf => .ninf
  | .fin a, .fin b => .fin (Min.min a b)
  | .fin a, .pinf => .fin a
  | .pinf, b => b

/-- `Math.round` on a finite rational: round half toward `+∞`. -/
def jsRound (q : ℚ) : ℤ := ⌊q + 1 / 2⌋

/-- `Math.round` on a JS number (`round(±∞) = ±∞`, `round(NaN) = NaN`). -/
def JS.round : JS → JS
  | .fin a => .fin ((jsRound a : ℤ) : ℚ)
  | x => x

/-- JS comparison `<` (false whenever either side is NaN). -/
def JS.lt : JS → JS → Bool
  | .nan, _ => false
  | _, .nan => false
  | .ninf, .ninf => false
  | .ninf, _ => true
  | _, .ninf => false
  | .fin a, .fin b => decide (a < b)
  | .pinf, _ => false
  | .fin _, .pinf => true

/-- JS comparison `<=` (false whenever either side is NaN). -/
def JS.le : JS → JS → Bool
  | .nan, _ => false
  | _, .nan => false
  | .ninf, _ => true
  | _, .ninf => false
  | .fin a, .fin b => decide (a ≤ b)
  | _, .pinf => true
  | .pinf, .fin _ => false

/-- Characters matched by the JS regex class `\s`. -/
def jsWhitespace (c : Char) : Bool :=
  c = ' ' || c = '\t' || c = '\n' || c = '\r' || c = '\x0b' || c = '\x0c' ||
  c = ' ' || c = ' ' ||
  (decide (0x2000 ≤ c.toNat) && decide (c.toNat ≤ 0x200A)) ||
  c = ' ' || c = ' ' || c = ' ' || c = ' ' ||
  c = '　' || c = '﻿'

/-- Sentence delimiters, the JS regex class `[.!?]`. -/
def isSentenceDelim (c : Char) : Bool := c = '.' || c = '!' || c = '?'

/-- Split a character list at every delimiter character, like
`String.prototype.split` at single characters (splitting at each
delimiter rather than at maximal runs produces extra empty fragments,
which the scorer filters away, so the filtered fragment lists coincide
with those of the source regexes `[.!?]+` and `\s+`). -/
def splitChars (p : Char → Bool) : List Char → List (List Char)
  | [] => [[]]
  | c :: cs =>
      if p c then [] :: splitChars p cs
      else
        match splitChars p cs with
        | [] => [[c]]
        | w :: ws => (c :: w) :: ws

/-- `content.split(/[.!?]+/).filter(s => s.trim().length > 0)`: the
filter keeps exactly the fragments containing a non-whitespace character. -/
def sentencesOf (content : String) : List (List Char) :=
  (splitChars isSentenceDelim content.data).filter
    (fun s => s.any (fun c => !jsWhitespace c))

/-- `content.split(/\s+/).filter(w => w.length > 0)`. -/
def wordsOf (content : String) : List (List Char) :=
  (splitChars jsWhitespace content.data).filter (fun w => decide (0 < w.length))

/-- `String.prototype.toLowerCase` (ASCII case mapping). -/
def jsToLower (s : String) : String := ⟨s.data.map Char.toLower⟩

/-- Is `pat` a prefix of the second list? -/
def charsPrefix : List Char → List Char → Bool
  | [], _ => true
  | _ :: _, [] => false
  | a :: as, b :: bs => a = b && charsPrefix as bs

/-- Does `pat` occur as a contiguous sublist of the haystack? -/
def charsContainsAux (pat : List Char) : List Char → Bool
  | [] => charsPrefix pat []
  | c :: rest => charsPrefix pat (c :: rest) || charsContainsAux pat rest

/-- `String.prototype.includes`: does `sub` occur as a substring of `s`? -/
def jsIncludes (s sub : String) : Bool := charsContainsAux sub.data s.data

/-- `String.prototype.trim`, stripping JS whitespace from both ends. -/
def jsTrim (s : String) : String :=
  ⟨((s.data.dropWhile jsWhitespace).reverse.dropWhile jsWhitespace).reverse⟩

/-- The test `/[.!?]$/.test(content.trim())`: the trimmed text is
nonempty and its last character is a sentence delimiter. -/
def endsWithPunct (content : String) : Bool :=
  match (jsTrim content).data.getLast? with
  | some c => isSentenceDelim c
  | none => false

/-- Characters matched by the JS regex class `\w`. -/
def isWordChar (c : Char) : Bool := c.isAlphanum || c = '_'

/-- A `\b` word boundary holds before a digit when the preceding
character (if any) is not a word character. -/
def boundaryBefore : Option Char → Bool
  | none => true
  | some c => !isWordChar c

/-- Do the next four characters form a digit run followed by a word
boundary (`\d{4}\b`)? -/
def fourDigitsHere : List Char → Bool
  | c1 :: c2 :: c3 :: c4 :: rest =>
      c1.isDigit && c2.isDigit && c3.isDigit && c4.isDigit &&
      (match rest with
       | [] => true
       | d :: _ => !isWordChar d)
  | _ => false

/-- Scanner for `/\b\d{4}\b/.test(content)`, tracking the previous
character to decide the leading word boundary. -/
def hasFourDigitRunAux (prev : Option Char) : List Char → Bool
  | [] => false
  | c :: rest =>
      (boundaryBefore prev && fourDigitsHere (c :: rest)) ||
        hasFourDigitRunAux (some c) rest

/-- The regex test `/\b\d{4}\b/.test(content)`. -/
def hasFourDigitRun (content : String) : Bool :=
  hasFourDigitRunAux none content.data

/-- The fixed keyword vocabulary `jobKeywords` of the component. -/
def jobKeywords : List String :=
  ["react", "javascript", "typescript", "python", "node.js", "aws", "docker",
   "leadership", "management", "team", "project", "agile", "scrum",
   "communication", "problem-solving", "analytical", "strategic",
   "experience", "skills", "education", "certification", "achievement",
   "development", "design", "implementation", "optimization", "collaboration"]

/-- Grammar issue message for the lowercase first-person pronoun check. -/
def lowercaseIMsg : String := "Use of lowercase \"i\" instead of \"I\""

/-- Grammar issue message for missing final punctuation. -/
def missingPunctMsg : String := "Missing punctuation at the end"

/-- Grammar issue message for consecutive spaces. -/
def doubleSpaceMsg : String := "Multiple consecutive spaces found"

/-- Suggestion pushed when the rounded keyword score is below 60. -/
def keywordSuggestion : String :=
  "Include more relevant industry keywords and technical skills"

/-- Suggestion pushed when the rounded grammar score is below 80. -/
def grammarSuggestion : String :=
  "Review grammar and punctuation throughout the document"

/-- Suggestion pushed when the rounded readability score is below 70. -/
def readabilitySuggestion : String :=
  "Simplify sentence structure and reduce complex terminology"

/-- Suggestion pushed when the rounded formatting score is below 80. -/
def formattingSuggestion : String :=
  "Ensure proper formatting with consistent structure and contact information"

/-- Suggestion pushed when fewer than five keywords matched. -/
def skillsSuggestion : String :=
  "Add more specific technical skills and industry-relevant terms"

/-- `jobKeywords.filter(keyword => text.includes(keyword.toLowerCase()))`
where `text = content.toLowerCase()`. -/
def matchedKeywordsOf (content : String) : List String :=
  jobKeywords.filter (fun k => jsIncludes (jsToLower content) (jsToLower k))

/-- `Math.min((matchedKeywords.length / jobKeywords.length) * 100, 100)`. -/
def keywordScoreQ (content : String) : ℚ :=
  Min.min ((((matchedKeywordsOf content).length : ℚ) /
    ((jobKeywords.length : ℚ))) * 100) 100

/-- The grammar issue list, in the fixed source check order: lowercase
standalone "i" in the lowercased text, missing final punctuation in the
trimmed original, double space in the original. -/
def grammarIssuesOf (content : String) : List String :=
  (if jsIncludes (jsToLower content) " i " then [lowercaseIMsg] else []) ++
  (if !endsWithPunct content then [missingPunctMsg] else []) ++
  (if jsIncludes content "  " then [doubleSpaceMsg] else [])

/-- `Math.max(100 - grammarIssues.length * 15, 0)`. -/
def grammarScoreQ (content : String) : ℚ :=
  Max.max (100 - ((grammarIssuesOf content).length : ℚ) * 15) 0

/-- The formatting score: 100, minus 30 when shorter than 200
characters, minus 20 when longer than 5000, minus 10 when no "@" occurs,
minus 10 when no word-bounded four-digit run occurs, clamped below at 0. -/
def formattingScoreQ (content : String) : ℚ :=
  Max.max
    (100 - (if content.length < 200 then (30 : ℚ) else 0)
         - (if 5000 < content.length then (20 : ℚ) else 0)
         - (if !jsIncludes content "@" then (10 : ℚ) else 0)
         - (if !hasFourDigitRun content then (10 : ℚ) else 0)) 0

/-- `words.length / sentences.length` under JS division semantics. -/
def avgWordsPerSentenceJS (content : String) : JS :=
  JS.div (.fin ((wordsOf content).length : ℚ))
    (.fin ((sentencesOf content).length : ℚ))

/-- `words.filter(word => word.length > 7).length`. -/
def complexWordCount (content : String) : ℕ :=
  ((wordsOf content).filter (fun w => decide (7 < w.length))).length

/-- `Math.min(100 - Math.abs(avg - 15) * 2 - (complexWords / words.length) * 50, 100)`
under JS number semantics. -/
def readabilityScoreJS (content : String) : JS :=
  JS.min
    (JS.sub
      (JS.sub (.fin 100)
        (JS.mul (JS.abs (JS.sub (avgWordsPerSentenceJS content) (.fin 15)))
          (.fin 2)))
      (JS.mul
        (JS.div (.fin ((complexWordCount content : ℚ)))
          (.fin ((wordsOf content).length : ℚ)))
        (.fin 50)))
    (.fin 100)

/-- The `ScoreBreakdown` record: the three always-finite sub-scores as
(rounded) integers, readability as a JS number. -/
structure ScoreBreakdown where
  formatting : ℤ
  keywords : ℤ
  grammar : ℤ
  readability : JS
deriving DecidableEq

/-- The `readabilityMetrics` record of the result. -/
structure ReadabilityMetrics where
  sentences : ℕ
  avgWordsPerSentence : JS
  complexWords : ℕ
deriving DecidableEq

/-- The `ResumeAnalysis` result record. -/
structure AnalysisResult where
  overall : JS
  breakdown : ScoreBreakdown
  suggestions : List String
  matchedKeywords : List String
  grammarIssues : List String
  readabilityMetrics : ReadabilityMetrics
deriving DecidableEq

/-- The scorer `analyzeResume` of `ResumeScoring.tsx`. -/
def analyzeResume (content : String) : AnalysisResult :=
  let breakdown : ScoreBreakdown :=
    { formatting := jsRound (formattingScoreQ content)
      keywords := jsRound (keywordScoreQ content)
      grammar := jsRound (grammarScoreQ content)
      readability := (readabilityScoreJS content).round }
  { overall :=
      JS.round (JS.div
        (JS.add
          (JS.add
            (JS.add (JS.fin (breakdown.formatting : ℚ))
              (JS.fin (breakdown.keywords : ℚ)))
            (JS.fin (breakdown.grammar : ℚ)))
          breakdown.readability)
        (JS.fin 4))
    breakdown := breakdown
    suggestions :=
      (if breakdown.keywords < 60 then [keywordSuggestion] else []) ++
      (if breakdown.grammar < 80 then [grammarSuggestion] else []) ++
      (if JS.lt breakdown.readability (JS.fin 70) then [readabilitySuggestion] else []) ++
      (if breakdown.formatting < 80 then [formattingSuggestion] else []) ++
      (if (matchedKeywordsOf content).length < 5 then [skillsSuggestion] else [])
    matchedKeywords := matchedKeywordsOf content
    grammarIssues := grammarIssuesOf content
    readabilityMetrics :=
      { sentences := (sentencesOf content).length
        avgWordsPerSentence :=
          JS.div (JS.round (JS.mul (avgWordsPerSentenceJS content) (JS.fin 10)))
            (JS.fin 10)
        complexWords := complexWordCount content } }

/-- Scenario B input of the specification. -/
def scenarioBInput : String :=
  "I am a software engineer with experience in react and python."

/-- A Scenario C input: longer than 5000 characters, containing an email
address and a word-bounded four-digit year. -/
def scenarioCInput : String :=
  "john@example.com 2023 " ++ String.mk (List.replicate 5000 'a') ++ "."

/-! Projection lemmas: each field of `analyzeResume` in terms of the
named sub-computations. -/

lemma analyzeResume_formatting (c : String) :
    (analyzeResume c).breakdown.formatting = jsRound (formattingScoreQ c) := rfl

lemma analyzeResume_keywords (c : String) :
    (analyzeResume c).breakdown.keywords = jsRound (keywordScoreQ c) := rfl

lemma analyzeResume_grammar (c : String) :
    (analyzeResume c).breakdown.grammar = jsRound (grammarScoreQ c) := rfl

lemma analyzeResume_readability (c : String) :
    (analyzeResume c).breakdown.readability = (readabilityScoreJS c).round := rfl

lemma analyzeResume_matched (c : String) :
    (analyzeResume c).matchedKeywords = matchedKeywordsOf c := rfl

lemma analyzeResume_grammarIssues (c : String) :
    (analyzeResume c).grammarIssues = grammarIssuesOf c := rfl

lemma analyzeResume_sentences (c : String) :
    (analyzeResume c).readabilityMetrics.sentences = (sentencesOf c).length := rfl

lemma analyzeResume_suggestions (c : String) :
    (analyzeResume c).suggestions =
      (if jsRound (keywordScoreQ c) < 60 then [keywordSuggestion] else []) ++
      (if jsRound (grammarScoreQ c) < 80 then [grammarSuggestion] else []) ++
      (if JS.lt (readabilityScoreJS c).round (JS.fin 70) = true
        then [readabilitySuggestion] else []) ++
      (if jsRound (formattingScoreQ c) < 80 then [formattingSuggestion] else []) ++
      (if (matchedKeywordsOf c).length < 5 then [skillsSuggestion] else []) := rfl

/-! Arithmetic facts about the rounding function and score ranges. -/

lemma jsRound_nonneg {q : ℚ} (h : 0 ≤ q) : 0 ≤ jsRound q := by
  unfold jsRound
  exact Int.le_floor.mpr (by push_cast; linarith)

lemma jsRound_le_hundred {q : ℚ} (h : q ≤ 100) : jsRound q ≤ 100 := by
  unfold jsRound
  have h2 : ⌊q + 1 / 2⌋ < 101 := Int.floor_lt.mpr (by push_cast; linarith)
  omega

lemma formattingScoreQ_nonneg (c : String) : 0 ≤ formattingScoreQ c :=
  le_max_right _ _

lemma formattingScoreQ_le (c : String) : formattingScoreQ c ≤ 100 := by
  unfold formattingScoreQ
  apply max_le _ (by norm_num)
  split_ifs <;> norm_num

lemma keywordScoreQ_nonneg (c : String) : 0 ≤ keywordScoreQ c := by
  unfold keywordScoreQ
  exact le_min (by positivity) (by norm_num)

lemma keywordScoreQ_le (c : String) : keywordScoreQ c ≤ 100 :=
  min_le_right _ _

lemma grammarScoreQ_nonneg (c : String) : 0 ≤ grammarScoreQ c :=
  le_max_right _ _

lemma grammarScoreQ_le (c : String) : grammarScoreQ c ≤ 100 := by
  unfold grammarScoreQ
  exact max_le (by have : (0:ℚ) ≤ ((grammarIssuesOf c).length : ℚ) * 15 := by positivity
                   linarith) (by norm_num)

lemma complexWordCount_le (c : String) : complexWordCount c ≤ (wordsOf c).length :=
  List.length_filter_le _ _

/-- With no words at all, the complex-word ratio is `0 / 0 = NaN` and the
whole readability score collapses to NaN. -/
lemma readability_nan (c : String) (hw : (wordsOf c).length = 0) :
    readabilityScoreJS c = JS.nan := by
  have hx : complexWordCount c = 0 :=
    Nat.le_zero.mp (hw ▸ complexWordCount_le c)
  by_cases hs : (sentencesOf c).length = 0 <;>
    simp [readabilityScoreJS, avgWordsPerSentenceJS, hw, hx, hs,
      JS.div, JS.mul, JS.sub, JS.add, JS.neg, JS.abs, JS.min]

/-- With at least one word and no sentences, the average is `+∞` and the
readability score collapses to `-∞`. -/
lemma readability_ninf (c : String) (hw : (wordsOf c).length ≠ 0)
    (hs : (sentencesOf c).length = 0) : readabilityScoreJS c = JS.ninf := by
  have hw2 : (0 : ℚ) < ((wordsOf c).length : ℚ) := by
    exact_mod_cast Nat.pos_of_ne_zero hw
  have hw3 : ¬ (((wordsOf c).length : ℚ) = 0) := ne_of_gt hw2
  simp [readabilityScoreJS, avgWordsPerSentenceJS, hw2, hw3, hs,
    JS.div, JS.mul, JS.sub, JS.add, JS.neg, JS.abs, JS.min]

/-- With at least one word and one sentence, the readability score is a
finite value, capped above at 100 by the final `Math.min`. -/
lemma readability_fin_le (c : String) (hw : (wordsOf c).length ≠ 0)
    (hs : (sentencesOf c).length ≠ 0) :
    ∃ q : ℚ, readabilityScoreJS c = JS.fin q ∧ q ≤ 100 := by
  have hw3 : ¬ (((wordsOf c).length : ℚ) = 0) := by
    exact_mod_cast hw
  have hs3 : ¬ (((sentencesOf c).length : ℚ) = 0) := by
    exact_mod_cast hs
  unfold readabilityScoreJS avgWordsPerSentenceJS
  simp only [JS.div, if_neg hw3, if_neg hs3, JS.sub, JS.neg, JS.add,
    JS.abs, JS.mul, JS.min]
  exact ⟨_, rfl, min_le_right _ _⟩

/-- C1: for every input, the overall score is the JS-rounded mean of the
four sub-scores of the breakdown, each of which was itself rounded
before the mean is taken. -/
theorem overall_eq_rounded_mean_of_breakdown (c : String) :
    (analyzeResume c).overall =
      JS.round (JS.div
        (JS.add
          (JS.add
            (JS.add (JS.fin ((analyzeResume c).breakdown.formatting : ℚ))
              (JS.fin ((analyzeResume c).breakdown.keywords : ℚ)))
            (JS.fin ((analyzeResume c).breakdown.grammar : ℚ)))
          (analyzeResume c).breakdown.readability)
        (JS.fin 4)) := rfl

/-- C9: `analyzeResume` is a pure function of its input string alone (the
embedding is a mathematical function, translated from a source function
that reads no mutable state), so two invocations on the identical input
yield structurally identical results. -/
theorem analyzeResume_deterministic (s : String) :
    analyzeResume s = analyzeResume s := rfl

/-- C10: the grammar sub-score is always one of 100, 85, 70, 55 (at most
three issues exist, each deducting 15, so the floor-at-0 clamp is never
reached), and at most three grammar issues are ever reported. -/
theorem grammar_score_four_values (c : String) :
    ((analyzeResume c).breakdown.grammar = 100 ∨
     (analyzeResume c).breakdown.grammar = 85 ∨
     (analyzeResume c).breakdown.grammar = 70 ∨
     (analyzeResume c).breakdown.grammar = 55) ∧
    (analyzeResume c).grammarIssues.length ≤ 3 := by
  rw [analyzeResume_grammar, analyzeResume_grammarIssues]
  unfold grammarScoreQ grammarIssuesOf
  split_ifs <;>
    exact ⟨by norm_num [jsRound], by norm_num⟩

/-- C2 counterexample: on the empty string (explicitly included in the
claim) the rounded readability sub-score is NaN, which is not at most
100 under the JS ordering. -/
theorem subscores_counterexample_empty :
    (analyzeResume "").breakdown.readability = JS.nan ∧
    JS.le (analyzeResume "").breakdown.readability (JS.fin 100) = false := by
  decide

/-- C2 (amended): the rounded formatting, keywords and grammar
sub-scores are integers in [0, 100] for every input; the rounded
readability sub-score is at most 100 (and never NaN, though possibly
`-∞`) whenever the input contains at least one word, and is NaN for
whitespace-only inputs. -/
theorem subscores_in_range (c : String) :
    (0 ≤ (analyzeResume c).breakdown.formatting ∧
      (analyzeResume c).breakdown.formatting ≤ 100) ∧
    (0 ≤ (analyzeResume c).breakdown.keywords ∧
      (analyzeResume c).breakdown.keywords ≤ 100) ∧
    (0 ≤ (analyzeResume c).breakdown.grammar ∧
      (analyzeResume c).breakdown.grammar ≤ 100) ∧
    ((wordsOf c).length ≠ 0 →
      (analyzeResume c).breakdown.readability ≠ JS.nan ∧
      JS.le (analyzeResume c).breakdown.readability (JS.fin 100) = true) ∧
    ((wordsOf c).length = 0 →
      (analyzeResume c).breakdown.readability = JS.nan) := by
  refine ⟨⟨?_, ?_⟩, ⟨?_, ?_⟩, ⟨?_, ?_⟩, ?_, ?_⟩
  · rw [analyzeResume_formatting]
    exact jsRound_nonneg (formattingScoreQ_nonneg c)
  · rw [analyzeResume_formatting]
    exact jsRound_le_hundred (formattingScoreQ_le c)
  · rw [analyzeResume_keywords]
    exact jsRound_nonneg (keywordScoreQ_nonneg c)
  · rw [analyzeResume_keywords]
    exact jsRound_le_hundred (keywordScoreQ_le c)
  · rw [analyzeResume_grammar]
    exact jsRound_nonneg (grammarScoreQ_nonneg c)
  · rw [analyzeResume_grammar]
    exact jsRound_le_hundred (grammarScoreQ_le c)
  · intro hw
    rw [analyzeResume_readability]
    by_cases hs : (sentencesOf c).length = 0
    · rw [readability_ninf c hw hs]
      exact ⟨by decide, by decide⟩
    · obtain ⟨q, hq, hle⟩ := readability_fin_le c hw hs
      rw [hq]
      constructor
      · simp [JS.round]
      · show JS.le (JS.fin ((jsRound q : ℤ) : ℚ)) (JS.fin 100) = true
        simp only [JS.le, decide_eq_true_eq]
        exact_mod_cast jsRound_le_hundred hle
  · intro hw
    rw [analyzeResume_readability, readability_nan c hw]
    rfl

/-- C2 witness: the bounds instantiated at the concrete input "hi",
which contains a word. -/
theorem subscores_in_range_witness :
    (0 ≤ (analyzeResume "hi").breakdown.formatting ∧
      (analyzeResume "hi").breakdown.formatting ≤ 100) ∧
    (0 ≤ (analyzeResume "hi").breakdown.keywords ∧
      (analyzeResume "hi").breakdown.keywords ≤ 100) ∧
    (0 ≤ (analyzeResume "hi").breakdown.grammar ∧
      (analyzeResume "hi").breakdown.grammar ≤ 100) ∧
    ((analyzeResume "hi").breakdown.readability ≠ JS.nan ∧
      JS.le (analyzeResume "hi").breakdown.readability (JS.fin 100) = true) := by
  obtain ⟨h1, h2, h3, h4, _⟩ := subscores_in_range "hi"
  exact ⟨h1, h2, h3, h4 (by decide)⟩

/-- C3 counterexample: the input "Hello I am." contains no lowercase
" i " substring, yet the lowercase-pronoun grammar issue is reported,
because the source tests the lowercased text. -/
theorem lowercase_i_counterexample :
    jsIncludes "Hello I am." " i " = false ∧
    lowercaseIMsg ∈ (analyzeResume "Hello I am.").grammarIssues := by
  decide

/-- C3 (amended): the lowercase-pronoun issue is appended exactly when
the lowercased input text contains the substring " i " (so a standalone
"i" or "I" surrounded by spaces both trigger it), and the grammar score
applies a 15-point deduction per reported issue. -/
theorem lowercase_i_issue_iff (c : String) :
    (lowercaseIMsg ∈ (analyzeResume c).grammarIssues ↔
      jsIncludes (jsToLower c) " i " = true) ∧
    (analyzeResume c).breakdown.grammar =
      jsRound (Max.max
        (100 - ((analyzeResume c).grammarIssues.length : ℚ) * 15) 0) := by
  constructor
  · rw [analyzeResume_grammarIssues]
    unfold grammarIssuesOf
    split_ifs with h1 h2 h3 <;>
      simp_all [lowercaseIMsg, missingPunctMsg, doubleSpaceMsg]
  · rfl

/-- C4 counterexample: the single word "Resume" does not have sentence
count 0 (the code counts it as one sentence), and for the genuinely
zero-sentence whitespace input " " the displayed average words per
sentence is NaN, not a defined fallback. -/
theorem zero_sentence_counterexample :
    ¬ ((analyzeResume "Resume").readabilityMetrics.sentences = 0) ∧
    (analyzeResume " ").readabilityMetrics.sentences = 0 ∧
    (analyzeResume " ").readabilityMetrics.avgWordsPerSentence = JS.nan := by
  decide

/-- C4 (amended): "Resume" is counted as one sentence (any fragment with
a non-whitespace character counts); for a zero-sentence input with at
least one word, such as "...", the average words-per-sentence metric is
`+∞`; for a zero-sentence input with no words, such as " ", it is NaN.
No exception is raised in any case (the scorer is a total function). -/
theorem zero_sentence_behavior :
    (analyzeResume "Resume").readabilityMetrics.sentences = 1 ∧
    (analyzeResume "...").readabilityMetrics.sentences = 0 ∧
    (analyzeResume "...").readabilityMetrics.avgWordsPerSentence = JS.pinf ∧
    (analyzeResume " ").readabilityMetrics.avgWordsPerSentence = JS.nan := by
  decide

/-- C5: the suggestions list is exactly the concatenation, in fixed
order, of the five independent conditional suggestions (rounded keyword
score < 60, rounded grammar score < 80, rounded readability score < 70,
rounded formatting score < 80, matched-keyword count < 5); conditions
(1) and (5) are distinct and co-fire, e.g. on "hello.". -/
theorem suggestions_five_conditions :
    (∀ c : String, (analyzeResume c).suggestions =
      (if (analyzeResume c).breakdown.keywords < 60
        then [keywordSuggestion] else []) ++
      (if (analyzeResume c).breakdown.grammar < 80
        then [grammarSuggestion] else []) ++
      (if JS.lt (analyzeResume c).breakdown.readability (JS.fin 70) = true
        then [readabilitySuggestion] else []) ++
      (if (analyzeResume c).breakdown.formatting < 80
        then [formattingSuggestion] else []) ++
      (if (analyzeResume c).matchedKeywords.length < 5
        then [skillsSuggestion] else [])) ∧
    keywordSuggestion ∈ (analyzeResume "hello.").suggestions ∧
    skillsSuggestion ∈ (analyzeResume "hello.").suggestions := by
  have hk : jsRound (keywordScoreQ "hello.") < 60 := by
    have h : matchedKeywordsOf "hello." = [] := by decide
    unfold keywordScoreQ
    rw [h]
    norm_num [jsRound]
  refine ⟨fun c => rfl, ?_, ?_⟩
  · rw [analyzeResume_suggestions, if_pos hk]
    exact List.mem_append.mpr (Or.inl (List.mem_append.mpr (Or.inl
      (List.mem_append.mpr (Or.inl (List.mem_append.mpr (Or.inl
        (List.mem_singleton.mpr rfl))))))))
  · rw [analyzeResume_suggestions]
    refine List.mem_append.mpr (Or.inr ?_)
    rw [if_pos (by decide : (matchedKeywordsOf "hello.").length < 5)]
    exact List.mem_singleton.mpr rfl

/-- C6: the formatting sub-score is 100 minus 30 (length below 200),
minus 20 (length above 5000), minus 10 (no "@"), minus 10 (no
word-bounded four-digit run), floored at 0; the over-5000-character
Scenario C input containing "john@example.com" and a standalone "2023"
scores 80. -/
lemma scenarioCInput_length : scenarioCInput.length = 5023 := by
  have hmk : (String.mk (List.replicate 5000 'a')).length = 5000 := by
    rw [show (String.mk (List.replicate 5000 'a')).length
        = (List.replicate 5000 'a').length from rfl, List.length_replicate]
  unfold scenarioCInput
  rw [String.length_append, String.length_append, hmk]
  decide

theorem formatting_score_formula :
    (∀ c : String, (analyzeResume c).breakdown.formatting =
      Max.max (100 - (if c.length < 200 then (30 : ℤ) else 0)
        - (if 5000 < c.length then (20 : ℤ) else 0)
        - (if !jsIncludes c "@" then (10 : ℤ) else 0)
        - (if !hasFourDigitRun c then (10 : ℤ) else 0)) 0) ∧
    (analyzeResume scenarioCInput).breakdown.formatting = 80 := by
  have hall : ∀ c : String, (analyzeResume c).breakdown.formatting =
      Max.max (100 - (if c.length < 200 then (30 : ℤ) else 0)
        - (if 5000 < c.length then (20 : ℤ) else 0)
        - (if !jsIncludes c "@" then (10 : ℤ) else 0)
        - (if !hasFourDigitRun c then (10 : ℤ) else 0)) 0 := by
    intro c
    rw [analyzeResume_formatting]
    unfold formattingScoreQ
    split_ifs <;> norm_num [jsRound]
  refine ⟨hall, ?_⟩
  rw [hall scenarioCInput]
  have h1 : ¬ (scenarioCInput.length < 200) := by
    rw [scenarioCInput_length]
    decide
  have h2 : 5000 < scenarioCInput.length := by
    rw [scenarioCInput_length]
    decide
  have h3 : jsIncludes scenarioCInput "@" = true := by decide
  have h4 : hasFourDigitRun scenarioCInput = true := by decide
  rw [if_neg h1, if_pos h2, h3, h4]
  norm_num

/-- C7: two inputs with the same lowercasing (in particular, inputs
differing only in the casing of their characters) receive the same
matched-keyword list and the same rounded keyword score. -/
theorem keyword_case_invariance (s1 s2 : String)
    (h : jsToLower s1 = jsToLower s2) :
    (analyzeResume s1).matchedKeywords = (analyzeResume s2).matchedKeywords ∧
    (analyzeResume s1).breakdown.keywords =
      (analyzeResume s2).breakdown.keywords := by
  have hm : matchedKeywordsOf s1 = matchedKeywordsOf s2 := by
    unfold matchedKeywordsOf
    rw [h]
  constructor
  · rw [analyzeResume_matched, analyzeResume_matched, hm]
  · rw [analyzeResume_keywords, analyzeResume_keywords]
    unfold keywordScoreQ
    rw [hm]

/-- C7 witness: case invariance instantiated at "REACT and Python"
versus "react and python". -/
theorem keyword_case_invariance_witness :
    jsToLower "REACT and Python" = jsToLower "react and python" ∧
    (analyzeResume "REACT and Python").matchedKeywords =
      (analyzeResume "react and python").matchedKeywords ∧
    (analyzeResume "REACT and Python").breakdown.keywords =
      (analyzeResume "react and python").breakdown.keywords := by
  have h := keyword_case_invariance "REACT and Python" "react and python"
    (by decide)
  exact ⟨by decide, h.1, h.2⟩

/-- C8: on the Scenario B input the grammar score is 100, the formatting
score is 50, and "react", "python" and "experience" are all matched
keywords. -/
theorem scenario_b_values :
    (analyzeResume scenarioBInput).breakdown.grammar = 100 ∧
    (analyzeResume scenarioBInput).breakdown.formatting = 50 ∧
    "react" ∈ (analyzeResume scenarioBInput).matchedKeywords ∧
    "python" ∈ (analyzeResume scenarioBInput).matchedKeywords ∧
    "experience" ∈ (analyzeResume scenarioBInput).matchedKeywords := by
  refine ⟨?_, ?_, by decide, by decide, by decide⟩
  · have h : grammarIssuesOf scenarioBInput = [] := by decide
    rw [analyzeResume_grammar]
    unfold grammarScoreQ
    rw [h]
    norm_num [jsRound]
  · have h1 : scenarioBInput.length < 200 := by decide
    have h2 : ¬ (5000 < scenarioBInput.length) := by decide
    have h3 : jsIncludes scenarioBInput "@" = false := by decide
    have h4 : hasFourDigitRun scenarioBInput = false := by decide
    rw [analyzeResume_formatting]
    unfold formattingScoreQ
    rw [if_pos h1, if_neg h2, h3, h4]
    norm_num [jsRound]

end ResumeScoreWiz
